import Mathlib

/-!
Verification development for the campus-cloud backend (share_file.py,
submit_assignment.py, complete_upload.py).

The Python handlers are shallowly embedded as pure Lean functions over explicit
state records.  DynamoDB tables are lists of records; `query` on an index is
`List.find?` / `List.filter`; `update_item` on a key is a `List.map` that
rewrites the matching record (upsert-creation of a partial item for an absent
key is not modeled — no claim touches that corner).  ISO-8601 UTC timestamps
compare consistently with time order, so timestamps are `Nat`.  External
nondeterminism (uuid4 supply, per-call put_item success) is an explicit
environment argument.  Notification dispatch (fire-and-forget SNS) has no
observable effect on handler results and is omitted.  Python string
operations are re-implemented structurally on `String.data` so that concrete
runs reduce in the kernel.
-/

/-- Python `str.lower`, mapping each character. -/
def lowerStr (s : String) : String := ⟨s.data.map Char.toLower⟩

/-- Python slice `s[:n]`. -/
def strTake (s : String) (n : Nat) : String := ⟨s.data.take n⟩

/-- Python `c in s` for a single character. -/
def strHasChar (s : String) (c : Char) : Bool := s.data.contains c

/-- Contiguous-sublist test on character lists. -/
def listHasInfix (l pat : List Char) : Bool :=
  match l with
  | [] => pat.isPrefixOf ([] : List Char)
  | _ :: t => pat.isPrefixOf l || listHasInfix t pat

/-- Python `pat in s` substring test. -/
def strHasSub (s pat : String) : Bool := listHasInfix s.data pat.data

/-- The instructor-role check used by submit_assignment.py:
`"instructor" in user_role.lower() or "admin" in user_role.lower()`. -/
def roleAllowed (role : String) : Bool :=
  strHasSub (lowerStr role) "instructor" || strHasSub (lowerStr role) "admin"

/-- Digit-string accumulator for `parseNat?`. -/
def digitsVal : List Char → Nat → Option Nat
  | [], acc => some acc
  | c :: t, acc => if c.isDigit then digitsVal t (acc * 10 + (c.toNat - 48)) else none

/-- Parse a nonempty all-digit string. -/
def parseNat? (l : List Char) : Option Nat :=
  match l with
  | [] => none
  | _ => digitsVal l 0

/-- A successfully parsed pagination-token JSON value: either the store's
LastEvaluatedKey dict (carrying the raw-query position) or some other JSON
value that is not of the store's key shape (a bare number, a list, ...). -/
inductive JsonVal
  | keyDict (pos : Nat)
  | otherJson (raw : String)
deriving DecidableEq, Repr

/-- `json.loads` on a pagination token.  `none` models a JSONDecodeError on
malformed text — the only failure the handlers catch.  The serialized key
dict parses to `keyDict`; a bare JSON number parses to `otherJson`, standing
for the JSON-valid values that are not the store's key shape. -/
def json_loads (t : String) : Option JsonVal :=
  match t.data with
  | 'k' :: 'e' :: 'y' :: ':' :: rest =>
    match parseNat? rest with
    | some n => some (.keyDict n)
    | none => none
  | l =>
    match parseNat? l with
    | some _ => some (.otherJson t)
    | none => none

/-- The store's validation of a supplied ExclusiveStartKey: only the key dict
is accepted; any other JSON value makes the query raise
(ParamValidationError / ValidationException), which the handlers' outer
`except Exception` turns into a 500 response. -/
def startKeyOf : JsonVal → Option Nat
  | .keyDict pos => some pos
  | .otherJson _ => none

/-- Serialization of the store's LastEvaluatedKey (`json.dumps(last_key)`). -/
def encodeToken (k : Nat) : String := "key:" ++ toString k

/-- A DynamoDB `query` with `Limit` and optional `ExclusiveStartKey` over one
partition, returning the page and the `LastEvaluatedKey` if records remain. -/
def pagedQuery {α : Type} (items : List α) (startKey? : Option Nat) (limit : Nat) :
    List α × Option Nat :=
  let start := startKey?.getD 0
  let page := (items.drop start).take limit
  let nextPos := start + page.length
  (page, if nextPos < items.length then some nextPos else none)

namespace ShareFile

/-- A row of the users table (EmailIndex lookup target). -/
structure UserRec where
  userId : String
  email : String
deriving DecidableEq, Repr

/-- A row of the files table, with the fields share_file.py reads. -/
structure FileRec where
  userId : String
  fileId : String
  filename : String
  fileSize : Nat
  contentType : String
  status : String
deriving DecidableEq, Repr

/-- A row of the shares table (key: fileId, sharedWithUserId). -/
structure Share where
  shareId : String
  fileId : String
  ownerId : String
  sharedWithUserId : String
  sharedWithEmail : String
  permissions : String
  sharedAt : Nat
  status : String
  accessCount : Nat
  message : Option String
  expiresAt : Option Nat
  lastAccessedAt : Option Nat
  revokedAt : Option Nat
deriving DecidableEq, Repr

/-- The persistent state visible to share_file.py. -/
structure ShareState where
  files : List FileRec
  shares : List Share
  users : List UserRec
deriving DecidableEq, Repr

/-- `get_user_by_email`: EmailIndex query with the lowercased email,
taking the first item. -/
def get_user_by_email (users : List UserRec) (email : String) : Option UserRec :=
  users.find? (fun u => u.email == lowerStr email)

/-- `check_existing_share`: query on (fileId, sharedWithUserId), first item. -/
def check_existing_share (shares : List Share) (fileId userId : String) : Option Share :=
  shares.find? (fun s => s.fileId == fileId && s.sharedWithUserId == userId)

/-- FileIdIndex query, taking `Items[0]`. -/
def find_file_by_id (files : List FileRec) (fileId : String) : Option FileRec :=
  files.find? (fun f => f.fileId == fileId)

/-- One element of the response's `shared` list. -/
structure SharedEntry where
  shareId : String
  email : String
  sharedAt : Nat
  expiresAt : Option Nat
  status : String
deriving DecidableEq, Repr

/-- One element of the response's `failed` list (`email` is absent for the
missing-email case). -/
structure FailedEntry where
  email : Option String
  error : String
deriving DecidableEq, Repr

/-- One entry of the request's `recipients` array. -/
structure Recipient where
  email : Option String
  permissions : String
deriving DecidableEq, Repr

/-- External nondeterminism: the uuid4 supply (consumed in call order) and
whether the k-th `put_item` attempt succeeds. -/
structure ShareEnv where
  uuidAt : Nat → String
  putOkAt : Nat → Bool

/-- Per-call context for recipient processing. -/
structure ShareCtx where
  fileId : String
  ownerId : String
  ownerEmail : String
  message : String
  expiresAt : Option Nat
  now : Nat

/-- Loop state of the recipient loop: the shares table plus the two result
lists and the uuid/put counters. -/
structure ShareAcc where
  shares : List Share
  successful : List SharedEntry
  failed : List FailedEntry
  uuidCount : Nat
  putCount : Nat

/-- The `share_item` record built before `put_item`. -/
def mkShareItem (ctx : ShareCtx) (shareId recipientUserId recipientEmail permissions : String) :
    Share :=
  { shareId := shareId, fileId := ctx.fileId, ownerId := ctx.ownerId,
    sharedWithUserId := recipientUserId, sharedWithEmail := recipientEmail,
    permissions := permissions, sharedAt := ctx.now, status := "active", accessCount := 0,
    message := if ctx.message == "" then none else some (strTake ctx.message 500),
    expiresAt := ctx.expiresAt, lastAccessedAt := none, revokedAt := none }

/-- One iteration of the recipient loop in `handle_share_file`. -/
def process_recipient (env : ShareEnv) (ctx : ShareCtx) (users : List UserRec)
    (acc : ShareAcc) (r : Recipient) : ShareAcc :=
  match r.email with
  | none => { acc with failed := acc.failed ++ [{ email := none, error := "Missing email" }] }
  | some recipientEmail =>
    if !(strHasChar recipientEmail '@' && strHasChar recipientEmail '.') then
      { acc with failed := acc.failed ++
          [{ email := some recipientEmail, error := "Invalid email format" }] }
    else if lowerStr recipientEmail == lowerStr ctx.ownerEmail then
      { acc with failed := acc.failed ++
          [{ email := some recipientEmail, error := "Cannot share with yourself" }] }
    else
      let recipientUserId : String :=
        match get_user_by_email users recipientEmail with
        | none => "pending-" ++ env.uuidAt acc.uuidCount
        | some u => u.userId
      let uuidCount1 : Nat :=
        match get_user_by_email users recipientEmail with
        | none => acc.uuidCount + 1
        | some _ => acc.uuidCount
      let create : ShareAcc :=
        let shareId := env.uuidAt uuidCount1
        let item := mkShareItem ctx shareId recipientUserId recipientEmail r.permissions
        if env.putOkAt acc.putCount then
          { acc with shares := acc.shares ++ [item],
                     successful := acc.successful ++
                       [{ shareId := shareId, email := recipientEmail, sharedAt := ctx.now,
                          expiresAt := ctx.expiresAt, status := "active" }],
                     uuidCount := uuidCount1 + 1, putCount := acc.putCount + 1 }
        else
          { acc with failed := acc.failed ++
              [{ email := some recipientEmail, error := "Failed to create share" }],
                     uuidCount := uuidCount1 + 1, putCount := acc.putCount + 1 }
      match check_existing_share acc.shares ctx.fileId recipientUserId with
      | some existing =>
        if existing.status == "active" then
          { acc with uuidCount := uuidCount1,
                     failed := acc.failed ++
            [{ email := some recipientEmail, error := "File already shared with this user" }] }
        else create
      | none => create

/-- Result of `handle_share_file`. -/
inductive ShareFileOutcome
  | err (statusCode : Nat) (error : String) (message : String)
  | ok (shared : List SharedEntry) (failed : List FailedEntry) (totalShared totalFailed : Nat)
deriving DecidableEq, Repr

/-- `handle_share_file`: POST /files/fileId/share. -/
def handle_share_file (env : ShareEnv) (st : ShareState) (userId userEmail : String)
    (fileId? : Option String) (recipients : List Recipient) (message : String)
    (expiresAt : Option Nat) (now : Nat) : ShareFileOutcome × ShareState :=
  match fileId? with
  | none => (.err 400 "Bad Request" "File ID is required", st)
  | some fileId =>
    if recipients.length == 0 then
      (.err 400 "Bad Request" "At least one recipient is required", st)
    else if recipients.length > 50 then
      (.err 400 "Bad Request" "Cannot share with more than 50 users at once", st)
    else
      match find_file_by_id st.files fileId with
      | none => (.err 404 "Not Found" "File not found", st)
      | some fileItem =>
        if fileItem.userId != userId then
          (.err 403 "Forbidden" "You can only share files you own", st)
        else if fileItem.status != "active" then
          (.err 400 "Bad Request" "Cannot share inactive file", st)
        else
          let ctx : ShareCtx := { fileId := fileId, ownerId := userId,
                                  ownerEmail := userEmail, message := message,
                                  expiresAt := expiresAt, now := now }
          let init : ShareAcc := { shares := st.shares, successful := [], failed := [],
                                   uuidCount := 0, putCount := 0 }
          let acc := recipients.foldl (process_recipient env ctx st.users) init
          (.ok acc.successful acc.failed acc.successful.length acc.failed.length,
           { st with shares := acc.shares })

/-- The expiry test of the listing paths: skip when `datetime.utcnow() > expiry`. -/
def shareNotExpired (now : Nat) (s : Share) : Bool :=
  match s.expiresAt with
  | none => true
  | some e => !(decide (now > e))

/-- A `formatted_share` entry of the list-shares response. -/
structure FormattedShare where
  shareId : String
  sharedWithUserId : String
  sharedWithEmail : String
  sharedAt : Nat
  permissions : String
  status : String
  accessCount : Nat
  expiresAt : Option Nat
  lastAccessedAt : Option Nat
deriving DecidableEq, Repr

/-- The per-share formatting in `handle_list_shares`. -/
def format_share (s : Share) : FormattedShare :=
  { shareId := s.shareId, sharedWithUserId := s.sharedWithUserId,
    sharedWithEmail := s.sharedWithEmail, sharedAt := s.sharedAt,
    permissions := s.permissions, status := s.status, accessCount := s.accessCount,
    expiresAt := s.expiresAt, lastAccessedAt := s.lastAccessedAt }

/-- Result of `handle_list_shares`. -/
inductive ListSharesOutcome
  | err (statusCode : Nat) (error : String) (message : String)
  | ok (fileId : String) (filename : String) (shares : List FormattedShare) (total : Nat)
deriving DecidableEq, Repr

/-- `handle_list_shares`: GET /files/fileId/shares.  The loop that appends
each active, non-expired share is written as filter-then-map. -/
def handle_list_shares (st : ShareState) (userId : String) (fileId? : Option String)
    (now : Nat) : ListSharesOutcome :=
  match fileId? with
  | none => .err 400 "Bad Request" "File ID is required"
  | some fileId =>
    match find_file_by_id st.files fileId with
    | none => .err 404 "Not Found" "File not found"
    | some fileItem =>
      if fileItem.userId != userId then
        .err 403 "Forbidden" "You can only view shares for files you own"
      else
        let fileShares := st.shares.filter (fun s => s.fileId == fileId)
        let active := (fileShares.filter
          (fun s => s.status == "active" && shareNotExpired now s)).map format_share
        .ok fileId fileItem.filename active active.length

/-- Result of `handle_revoke_share`. -/
inductive RevokeOutcome
  | err (statusCode : Nat) (error : String) (message : String)
  | ok (success : Bool) (message : String) (shareId : String)
deriving DecidableEq, Repr

/-- `handle_revoke_share`: DELETE /files/fileId/shares/shareId.  The final
`update_item` unconditionally sets status `revoked` and a fresh revokedAt. -/
def handle_revoke_share (st : ShareState) (userId : String)
    (fileId? shareId? : Option String) (now : Nat) : RevokeOutcome × ShareState :=
  match fileId?, shareId? with
  | some fileId, some shareId =>
    (match find_file_by_id st.files fileId with
     | none => (.err 404 "Not Found" "File not found", st)
     | some fileItem =>
       if fileItem.userId != userId then
         (.err 403 "Forbidden" "You can only revoke shares for files you own", st)
       else
         match st.shares.find? (fun s => s.shareId == shareId) with
         | none => (.err 404 "Not Found" "Share not found", st)
         | some share =>
           if share.fileId != fileId then
             (.err 400 "Bad Request" "Share does not belong to this file", st)
           else
             let newShares := st.shares.map (fun s =>
               if s.fileId == fileId && s.sharedWithUserId == share.sharedWithUserId then
                 { s with status := "revoked", revokedAt := some now }
               else s)
             (.ok true "Share access revoked" shareId, { st with shares := newShares }))
  | _, _ => (.err 400 "Bad Request" "File ID and Share ID are required", st)

/-- One entry of the shared-with-me response (`sharedByEmail` is
`share.get("ownerEmail", "")`, and created shares never store ownerEmail). -/
structure SharedFileEntry where
  fileId : String
  filename : String
  fileSize : Nat
  contentType : String
  sharedByUserId : String
  sharedByEmail : String
  sharedAt : Nat
  permissions : String
  expiresAt : Option Nat
  message : Option String
deriving DecidableEq, Repr

/-- Result of `handle_shared_with_me`. -/
inductive SharedWithMeOutcome
  | err (statusCode : Nat) (error : String) (message : String)
  | ok (files : List SharedFileEntry) (total : Nat) (nextToken : Option String)
deriving DecidableEq, Repr

/-- `handle_shared_with_me`: GET /shared-with-me.  `json.loads` of the
nextToken is guarded only against JSONDecodeError (a parse failure means no
ExclusiveStartKey is set); a token that parses to a JSON value of the wrong
shape is passed to the store, and the query's validation error is caught by
the handler's outer `except Exception` as a 500 response. -/
def handle_shared_with_me (st : ShareState) (userId : String) (limitReq : Nat)
    (nextToken? : Option String) (now : Nat) : SharedWithMeOutcome :=
  let limit := min limitReq 100
  let parsed? : Option JsonVal :=
    match nextToken? with
    | none => none
    | some t => json_loads t
  let run : Option Nat → SharedWithMeOutcome := fun startKey? =>
    let userShares := st.shares.filter (fun s => s.sharedWithUserId == userId)
    let qr := pagedQuery userShares startKey? limit
    let sharedFiles := qr.1.filterMap (fun s =>
      if !(s.status == "active") then none
      else if !(shareNotExpired now s) then none
      else
        match find_file_by_id st.files s.fileId with
        | none => none
        | some f => some { fileId := f.fileId, filename := f.filename, fileSize := f.fileSize,
                           contentType := f.contentType, sharedByUserId := s.ownerId,
                           sharedByEmail := "", sharedAt := s.sharedAt,
                           permissions := s.permissions, expiresAt := s.expiresAt,
                           message := s.message })
    .ok sharedFiles sharedFiles.length (qr.2.map encodeToken)
  match parsed? with
  | none => run none
  | some v =>
    match startKeyOf v with
    | some k => run (some k)
    | none => .err 500 "Internal Server Error" "Invalid ExclusiveStartKey"

end ShareFile

namespace SubmitAssignment

/-- A row of the assignments table, with the fields submit_assignment.py reads
(absent optional attributes are `none`). -/
structure Assignment where
  assignmentId : String
  courseId : String
  instructorId : String
  title : String
  status : String
  dueDate : Nat
  allowedFileTypes : Option (List String)
  maxFileSize : Option Nat
  maxSubmissions : Option Nat
  submissionCount : Nat
deriving DecidableEq, Repr

/-- A row of the files table, as read by the submit handler. -/
structure FileRec where
  userId : String
  fileId : String
  filename : String
  fileSize : Nat
  contentType : String
  status : String
deriving DecidableEq, Repr

/-- A row of the submissions table (key: assignmentId, studentId#submissionNumber).
Grades are exact decimals, modeled as rationals. -/
structure Submission where
  submissionId : String
  assignmentId : String
  studentId : String
  studentEmail : String
  studentName : String
  fileId : String
  filename : String
  fileSize : Nat
  submittedAt : Nat
  submissionNumber : Nat
  status : String
  isLate : Bool
  dueDate : Nat
  comments : Option String
  grade : Option Rat
  maxGrade : Option Rat
  feedback : Option String
  feedbackFileId : Option String
  gradedAt : Option Nat
  gradedBy : Option String
  gradedByName : Option String
deriving DecidableEq, Repr

/-- The persistent state visible to submit_assignment.py. -/
structure SubState where
  assignments : List Assignment
  files : List FileRec
  submissions : List Submission
deriving DecidableEq, Repr

/-- AssignmentIdIndex query, taking `Items[0]`. -/
def find_assignment (l : List Assignment) (aid : String) : Option Assignment :=
  l.find? (fun a => a.assignmentId == aid)

/-- The query for existing submissions of (assignment, student): key condition
on assignmentId with a studentId filter. -/
def student_submissions (l : List Submission) (aid uid : String) : List Submission :=
  l.filter (fun s => s.assignmentId == aid && s.studentId == uid)

/-- Result of `handle_submit_assignment`. -/
inductive SubmitOutcome
  | err (statusCode : Nat) (error : String) (message : String)
  | ok (sub : Submission)
deriving DecidableEq, Repr

/-- `handle_submit_assignment`: POST /assignments/assignmentId/submit.
`newSubmissionId` is the uuid4 value drawn for this call. -/
def handle_submit_assignment (st : SubState) (userId userEmail userName : String)
    (assignmentId? fileId? : Option String) (comments : String)
    (now : Nat) (newSubmissionId : String) : SubmitOutcome × SubState :=
  match assignmentId? with
  | none => (.err 400 "Bad Request" "Assignment ID is required", st)
  | some assignmentId =>
    match fileId? with
    | none => (.err 400 "Bad Request" "File ID is required", st)
    | some fileId =>
      match find_assignment st.assignments assignmentId with
      | none => (.err 404 "Not Found" "Assignment not found", st)
      | some assignment =>
        if assignment.status != "active" then
          (.err 400 "Bad Request"
            ("Assignment is not active (status: " ++ assignment.status ++ ")"), st)
        else
          let isLate := decide (now > assignment.dueDate)
          match st.files.find? (fun f => f.userId == userId && f.fileId == fileId) with
          | none => (.err 404 "Not Found" "File not found or you do not have access", st)
          | some fileItem =>
            if fileItem.status != "active" then
              (.err 400 "Bad Request" "File is not active and cannot be submitted", st)
            else if (match assignment.allowedFileTypes with
                     | some allowed => !(allowed.contains fileItem.contentType)
                     | none => false) then
              (.err 400 "Bad Request"
                ("File type " ++ fileItem.contentType ++ " is not allowed for this assignment"),
               st)
            else if (match assignment.maxFileSize with
                     | some m => decide (fileItem.fileSize > m)
                     | none => false) then
              (.err 400 "Payload Too Large" "File size exceeds maximum allowed size", st)
            else
              let submissionCount := (student_submissions st.submissions assignmentId userId).length
              let maxSubmissions := assignment.maxSubmissions.getD 1
              if maxSubmissions ≤ submissionCount then
                (.err 403 "Forbidden"
                  ("Maximum submission limit reached (" ++ toString maxSubmissions ++ ")"), st)
              else
                let sub : Submission :=
                  { submissionId := newSubmissionId, assignmentId := assignmentId,
                    studentId := userId, studentEmail := userEmail, studentName := userName,
                    fileId := fileId, filename := fileItem.filename,
                    fileSize := fileItem.fileSize, submittedAt := now,
                    submissionNumber := submissionCount + 1, status := "submitted",
                    isLate := isLate, dueDate := assignment.dueDate,
                    comments := if comments == "" then none else some (strTake comments 1000),
                    grade := none, maxGrade := none, feedback := none, feedbackFileId := none,
                    gradedAt := none, gradedBy := none, gradedByName := none }
                let newAssignments := st.assignments.map (fun a =>
                  if a.courseId == assignment.courseId && a.assignmentId == assignmentId then
                    { a with submissionCount := a.submissionCount + 1 }
                  else a)
                (.ok sub,
                 { st with submissions := st.submissions ++ [sub],
                           assignments := newAssignments })

/-- Result of `handle_grade_submission`. -/
inductive GradeOutcome
  | err (statusCode : Nat) (error : String) (message : String)
  | ok (submissionId : String) (grade maxGrade : Rat) (feedback : String)
       (gradedAt : Nat) (gradedByUserId gradedByName : String) (status : String)
deriving DecidableEq, Repr

/-- The `update_item` key of the grading write:
(assignmentId, studentId#submissionNumber). -/
def gradeKeyMatches (aid : String) (target s : Submission) : Bool :=
  s.assignmentId == aid && s.studentId == target.studentId &&
    s.submissionNumber == target.submissionNumber

/-- `handle_grade_submission`: PUT .../submissions/submissionId/grade.  The
update overwrites the grade fields unconditionally — there is no check of the
submission's current status. -/
def handle_grade_submission (st : SubState) (userId userRole userName : String)
    (assignmentId? submissionId? : Option String)
    (grade? : Option Rat) (maxGrade : Rat) (feedback : String)
    (feedbackFileId? : Option String) (now : Nat) : GradeOutcome × SubState :=
  if !(roleAllowed userRole) then
    (.err 403 "Forbidden" "Only instructors can grade submissions", st)
  else
    match assignmentId?, submissionId? with
    | some assignmentId, some submissionId =>
      (match grade? with
       | none => (.err 400 "Bad Request" "Grade is required", st)
       | some grade =>
         match find_assignment st.assignments assignmentId with
         | none => (.err 404 "Not Found" "Assignment not found", st)
         | some assignment =>
           if assignment.instructorId != userId then
             (.err 403 "Forbidden" "You can only grade submissions for your own assignments", st)
           else
             match st.submissions.find? (fun s => s.submissionId == submissionId) with
             | none => (.err 404 "Not Found" "Submission not found", st)
             | some submission =>
               if submission.assignmentId != assignmentId then
                 (.err 400 "Bad Request" "Submission does not belong to this assignment", st)
               else
                 let newSubs := st.submissions.map (fun s =>
                   if gradeKeyMatches assignmentId submission s then
                     { s with grade := some grade, maxGrade := some maxGrade,
                              feedback := some (strTake feedback 2000),
                              gradedAt := some now, gradedBy := some userId,
                              gradedByName := some userName, status := "graded",
                              feedbackFileId :=
                                match feedbackFileId? with
                                | some fid => some fid
                                | none => s.feedbackFileId }
                   else s)
                 (.ok submissionId grade maxGrade feedback now userId userName "graded",
                  { st with submissions := newSubs }))
    | _, _ => (.err 400 "Bad Request" "Assignment ID and Submission ID are required", st)

/-- The `statistics` block of the instructor listing, computed over the whole
unpaginated result set. -/
structure Statistics where
  totalSubmissions : Nat
  onTime : Nat
  late : Nat
  graded : Nat
  pending : Nat
deriving DecidableEq, Repr

/-- Result of `handle_list_submissions`. -/
inductive ListSubsOutcome
  | err (statusCode : Nat) (error : String) (message : String)
  | ok (assignmentId : String) (assignmentTitle : String) (submissions : List Submission)
       (total : Nat) (statistics : Statistics) (nextToken : Option String)
deriving DecidableEq, Repr

/-- `handle_list_submissions`: GET /assignments/assignmentId/submissions.
DynamoDB applies `Limit` before `FilterExpression`, so the status filter runs
on the raw page.  `json.loads` of the nextToken is guarded only against
JSONDecodeError (parse failure means no ExclusiveStartKey); a token parsing
to a JSON value of the wrong shape reaches the store, whose validation error
is caught by the outer `except Exception` as a 500 response. -/
def handle_list_submissions (st : SubState) (userId userRole : String)
    (assignmentId? : Option String) (statusFilter? : Option String)
    (limitReq : Nat) (nextToken? : Option String) : ListSubsOutcome :=
  if !(roleAllowed userRole) then
    .err 403 "Forbidden" "Only instructors can view all submissions"
  else
    match assignmentId? with
    | none => .err 400 "Bad Request" "Assignment ID is required"
    | some assignmentId =>
      let limit := min limitReq 100
      match find_assignment st.assignments assignmentId with
      | none => .err 404 "Not Found" "Assignment not found"
      | some assignment =>
        if assignment.instructorId != userId then
          .err 403 "Forbidden" "You can only view submissions for your own assignments"
        else
          let parsed? : Option JsonVal :=
            match nextToken? with
            | none => none
            | some t => json_loads t
          let run : Option Nat → ListSubsOutcome := fun startKey? =>
            let assignmentSubs := st.submissions.filter
              (fun s => s.assignmentId == assignmentId)
            let qr := pagedQuery assignmentSubs startKey? limit
            let page :=
              match statusFilter? with
              | none => qr.1
              | some f => qr.1.filter (fun s => s.status == f)
            let statistics : Statistics :=
              { totalSubmissions := assignmentSubs.length,
                onTime := (assignmentSubs.filter (fun s => !s.isLate)).length,
                late := (assignmentSubs.filter (fun s => s.isLate)).length,
                graded := (assignmentSubs.filter (fun s => s.status == "graded")).length,
                pending := (assignmentSubs.filter (fun s => s.status == "submitted")).length }
            .ok assignmentId assignment.title page page.length statistics
              (qr.2.map encodeToken)
          match parsed? with
          | none => run none
          | some v =>
            match startKeyOf v with
            | some k => run (some k)
            | none => .err 500 "Internal Server Error" "Invalid ExclusiveStartKey"

end SubmitAssignment

namespace CompleteUpload

/-- A row of the files table, with the fields complete_upload.py touches. -/
structure FileRec where
  userId : String
  fileId : String
  filename : String
  fileSize : Nat
  contentType : String
  status : String
  s3Key : String
  checksum : Option String
  virusScanStatus : Option String
  lastModified : Option Nat
deriving DecidableEq, Repr

/-- An object in the S3 bucket, as seen by `head_object`. -/
structure S3Object where
  key : String
  contentLength : Nat
  etag : String
deriving DecidableEq, Repr

/-- The persistent state visible to complete_upload.py. -/
structure UploadState where
  files : List FileRec
  s3Objects : List S3Object
deriving DecidableEq, Repr

/-- Result of the complete-upload handler. -/
inductive UploadOutcome
  | err (statusCode : Nat) (error : String) (message : String)
  | okCompleted (message : String) (file : FileRec)
  | okFailed (message : String) (fileId : String)
deriving DecidableEq, Repr

/-- `handle_failed_upload`: an unconditional `update_item` marking the
(userId, fileId) record `failed` — no check of the current status. -/
def handle_failed_upload (st : UploadState) (userId fileId : String) (now : Nat) :
    UploadOutcome × UploadState :=
  let newFiles := st.files.map (fun f =>
    if f.userId == userId && f.fileId == fileId then
      { f with status := "failed", lastModified := some now }
    else f)
  (.okFailed "Upload marked as failed" fileId, { st with files := newFiles })

/-- The field rewrite of the success-path `update_item` in complete_upload.py. -/
def applyCompletion (now : Nat) (s3obj : S3Object) (checksum? : Option String)
    (f : FileRec) : FileRec :=
  { f with status := "active", lastModified := some now,
           fileSize := s3obj.contentLength,
           checksum :=
             match checksum? with
             | some c => some c
             | none => if s3obj.etag == "" then f.checksum else some s3obj.etag,
           virusScanStatus := some "pending" }

/-- The complete-upload `lambda_handler` body after claims extraction:
POST /files/fileId/complete. -/
def complete_upload (st : UploadState) (userId : String) (fileId? : Option String)
    (uploadSuccess : Bool) (s3Key? : Option String) (checksum? : Option String)
    (now : Nat) : UploadOutcome × UploadState :=
  match fileId? with
  | none => (.err 400 "Bad Request" "File ID is required", st)
  | some fileId =>
    if !uploadSuccess then handle_failed_upload st userId fileId now
    else
      match s3Key? with
      | none => (.err 400 "Bad Request" "S3 key is required", st)
      | some s3Key =>
        match st.files.find? (fun f => f.userId == userId && f.fileId == fileId) with
        | none => (.err 404 "Not Found" "File not found", st)
        | some fileItem =>
          if fileItem.userId != userId then
            (.err 403 "Forbidden" "File does not belong to user", st)
          else if fileItem.status == "active" then
            (.okCompleted "File already completed" fileItem, st)
          else
            match st.s3Objects.find? (fun o => o.key == s3Key) with
            | none => (.err 404 "Not Found" "File not found in S3. Upload may have failed.", st)
            | some s3obj =>
              let newFiles := st.files.map (fun f =>
                if f.userId == userId && f.fileId == fileId then
                  applyCompletion now s3obj checksum? f
                else f)
              (.okCompleted "Upload completed successfully"
                 (applyCompletion now s3obj checksum? fileItem),
               { st with files := newFiles })

end CompleteUpload

section Fixtures

open ShareFile SubmitAssignment CompleteUpload

/-- An active file owned by user u1. -/
def exOwnerFile : ShareFile.FileRec :=
  { userId := "u1", fileId := "f1", filename := "a.txt", fileSize := 1,
    contentType := "text/plain", status := "active" }

/-- A stored share for (f1, u2) whose status is `active` but whose expiry (5)
is already past at evaluation time 10. -/
def exExpiredShare : ShareFile.Share :=
  { shareId := "sh0", fileId := "f1", ownerId := "u1", sharedWithUserId := "u2",
    sharedWithEmail := "b@x.com", permissions := "read", sharedAt := 0,
    status := "active", accessCount := 0, message := none, expiresAt := some 5,
    lastAccessedAt := none, revokedAt := none }

/-- State for the duplicate-share run: one active file, one expired-but-active
share, the recipient registered as u2. -/
def exShareState : ShareFile.ShareState :=
  { files := [exOwnerFile], shares := [exExpiredShare],
    users := [{ userId := "u2", email := "b@x.com" }] }

/-- A deterministic environment: sequential uuids, every put succeeds. -/
def exEnv : ShareFile.ShareEnv :=
  { uuidAt := fun n => "uuid-" ++ toString n, putOkAt := fun _ => true }

/-- Sharing f1 with b@x.com (registered as u2) at time 10, when the only
existing share for (f1, u2) expired at time 5. -/
def exC1run : ShareFile.ShareFileOutcome × ShareFile.ShareState :=
  ShareFile.handle_share_file exEnv exShareState "u1" "a@x.com" (some "f1")
    [{ email := some "b@x.com", permissions := "read" }] "" none 10

/-- A batch run with a single syntactically invalid recipient email. -/
def exBatchRun : ShareFile.ShareFileOutcome × ShareFile.ShareState :=
  ShareFile.handle_share_file exEnv exShareState "u1" "a@x.com" (some "f1")
    [{ email := some "x", permissions := "read" }] "" none 10

/-- An active share whose expiry equals the evaluation instant used below. -/
def exBoundaryShare : ShareFile.Share :=
  { shareId := "sh2", fileId := "f1", ownerId := "u1", sharedWithUserId := "u3",
    sharedWithEmail := "c@x.com", permissions := "read", sharedAt := 0,
    status := "active", accessCount := 0, message := none, expiresAt := some 100,
    lastAccessedAt := none, revokedAt := none }

/-- State for the boundary-expiry listing run. -/
def exC4State : ShareFile.ShareState :=
  { files := [exOwnerFile], shares := [exBoundaryShare], users := [] }

/-- A share that has already been revoked (revokedAt 3). -/
def exRevokedShare : ShareFile.Share :=
  { shareId := "sh1", fileId := "f1", ownerId := "u1", sharedWithUserId := "u2",
    sharedWithEmail := "b@x.com", permissions := "read", sharedAt := 0,
    status := "revoked", accessCount := 0, message := none, expiresAt := none,
    lastAccessedAt := none, revokedAt := some 3 }

/-- State for the re-revocation run. -/
def exC10State : ShareFile.ShareState :=
  { files := [exOwnerFile], shares := [exRevokedShare], users := [] }

/-- An active assignment with maxSubmissions 2 and due date 100. -/
def exAssignment : SubmitAssignment.Assignment :=
  { assignmentId := "a1", courseId := "c1", instructorId := "i1", title := "HW1",
    status := "active", dueDate := 100, allowedFileTypes := none,
    maxFileSize := none, maxSubmissions := some 2, submissionCount := 0 }

/-- The submitting student's active file. -/
def exSubFile : SubmitAssignment.FileRec :=
  { userId := "stu", fileId := "f1", filename := "a.txt", fileSize := 1,
    contentType := "text/plain", status := "active" }

/-- Initial submission state: one assignment, one file, no submissions. -/
def exSubState0 : SubmitAssignment.SubState :=
  { assignments := [exAssignment], files := [exSubFile], submissions := [] }

/-- First sequential submit (time 10). -/
def exSubmit1 : SubmitAssignment.SubmitOutcome × SubmitAssignment.SubState :=
  SubmitAssignment.handle_submit_assignment exSubState0 "stu" "s@x.com" "Stu"
    (some "a1") (some "f1") "" 10 "s1"

/-- Second sequential submit (time 11). -/
def exSubmit2 : SubmitAssignment.SubmitOutcome × SubmitAssignment.SubState :=
  SubmitAssignment.handle_submit_assignment exSubmit1.2 "stu" "s@x.com" "Stu"
    (some "a1") (some "f1") "" 11 "s2"

/-- Third sequential submit (time 12), past the maxSubmissions = 2 limit. -/
def exSubmit3 : SubmitAssignment.SubmitOutcome × SubmitAssignment.SubState :=
  SubmitAssignment.handle_submit_assignment exSubmit2.2 "stu" "s@x.com" "Stu"
    (some "a1") (some "f1") "" 12 "s3"

/-- The submission record the first submit is expected to create. -/
def exSub1 : SubmitAssignment.Submission :=
  { submissionId := "s1", assignmentId := "a1", studentId := "stu",
    studentEmail := "s@x.com", studentName := "Stu", fileId := "f1",
    filename := "a.txt", fileSize := 1, submittedAt := 10, submissionNumber := 1,
    status := "submitted", isLate := false, dueDate := 100, comments := none,
    grade := none, maxGrade := none, feedback := none, feedbackFileId := none,
    gradedAt := none, gradedBy := none, gradedByName := none }

/-- A second submission record for the same (assignment, student). -/
def exSub2 : SubmitAssignment.Submission :=
  { exSub1 with submissionId := "s2", submittedAt := 11, submissionNumber := 2 }

/-- A state in which the student already has 2 stored submissions. -/
def exTwoSubsState : SubmitAssignment.SubState :=
  { assignments := [exAssignment], files := [exSubFile],
    submissions := [exSub1, exSub2] }

/-- A submission that has already been graded (grade 50 at time 10). -/
def exGradedSub : SubmitAssignment.Submission :=
  { exSub1 with
    status := "graded", grade := some 50, maxGrade := some 100,
    feedback := some "ok", gradedAt := some 10, gradedBy := some "i1",
    gradedByName := some "Prof" }

/-- State holding the already-graded submission. -/
def exGradeState : SubmitAssignment.SubState :=
  { assignments := [exAssignment], files := [], submissions := [exGradedSub] }

/-- Grading the already-graded submission again (grade 80 at time 20). -/
def exRegrade : SubmitAssignment.GradeOutcome × SubmitAssignment.SubState :=
  SubmitAssignment.handle_grade_submission exGradeState "i1" "instructor" "Prof"
    (some "a1") (some "s1") (some 80) 100 "better" none 20

/-- An uploaded file already in `active` status. -/
def exUpFile : CompleteUpload.FileRec :=
  { userId := "u1", fileId := "f1", filename := "a.txt", fileSize := 1,
    contentType := "text/plain", status := "active", s3Key := "k1",
    checksum := none, virusScanStatus := some "pending", lastModified := none }

/-- State for the complete-upload runs. -/
def exUpState : CompleteUpload.UploadState :=
  { files := [exUpFile], s3Objects := [{ key := "k1", contentLength := 1, etag := "e" }] }

/-- A complete-upload request reporting failure against the active file. -/
def exFailReport : CompleteUpload.UploadOutcome × CompleteUpload.UploadState :=
  CompleteUpload.complete_upload exUpState "u1" (some "f1") false none none 50

/-- Recipient-loop context for a direct `process_recipient` run. -/
def exC1ctx : ShareFile.ShareCtx :=
  { fileId := "f1", ownerId := "u1", ownerEmail := "a@x.com", message := "",
    expiresAt := none, now := 10 }

/-- Users table for the direct `process_recipient` run. -/
def exC1users : List ShareFile.UserRec := [{ userId := "u2", email := "b@x.com" }]

/-- Loop state holding only the expired-but-active (f1, u2) share. -/
def exC1acc : ShareFile.ShareAcc :=
  { shares := [exExpiredShare], successful := [], failed := [],
    uuidCount := 0, putCount := 0 }

/-- Projection used to state sequence numbers of submit outcomes. -/
def submitNumber? : SubmitAssignment.SubmitOutcome → Option Nat
  | .ok sub => some sub.submissionNumber
  | .err _ _ _ => none

end Fixtures

/-- The expiry filter of the listing paths, as a proposition. -/
theorem shareNotExpired_iff (now : Nat) (s : ShareFile.Share) :
    ShareFile.shareNotExpired now s = true ↔ ∀ e ∈ s.expiresAt, now ≤ e := by
  unfold ShareFile.shareNotExpired
  cases s.expiresAt with
  | none => simp
  | some e => simp [Nat.not_lt]

/-- C1 (counterexample): at time 10, sharing f1 with the user u2 whose only
stored share for f1 has status `active` but expiresAt = 5 (already past) is
rejected as a duplicate, contradicting the claim that only an active AND
non-expired existing share triggers the duplicate rejection. -/
theorem share_duplicate_expired_still_rejected :
    exC1run.1 = ShareFile.ShareFileOutcome.ok []
      [{ email := some "b@x.com", error := "File already shared with this user" }] 0 1
    ∧ exShareState.shares = [exExpiredShare]
    ∧ exExpiredShare.status = "active"
    ∧ exExpiredShare.expiresAt = some 5
    ∧ 5 < 10
    ∧ exC1run.2 = exShareState := by
  refine ⟨by decide, by decide, by decide, by decide, by decide, by decide⟩

/-- C1 (amended): a recipient that passes the email checks is rejected as a
duplicate precisely when a stored share for (file, resolved grantee id) has
status `active` — the expiry timestamp is not consulted by the duplicate
check, so an expired-but-still-`active` share does trigger the rejection. -/
theorem share_duplicate_check_ignores_expiry
    (env : ShareFile.ShareEnv) (ctx : ShareFile.ShareCtx)
    (users : List ShareFile.UserRec) (acc : ShareFile.ShareAcc)
    (r : ShareFile.Recipient) (em rid : String)
    (hem : r.email = some em)
    (hvalid : (strHasChar em '@' && strHasChar em '.') = true)
    (hself : (lowerStr em == lowerStr ctx.ownerEmail) = false)
    (hrid : rid = (match ShareFile.get_user_by_email users em with
                   | none => "pending-" ++ env.uuidAt acc.uuidCount
                   | some u => u.userId))
    (huniq : ∀ s1 ∈ acc.shares, ∀ s2 ∈ acc.shares,
        s1.fileId = s2.fileId → s1.sharedWithUserId = s2.sharedWithUserId → s1 = s2) :
    ((ShareFile.process_recipient env ctx users acc r).failed
       = acc.failed ++ [{ email := some em, error := "File already shared with this user" }])
    ↔ ∃ s ∈ acc.shares, s.fileId = ctx.fileId ∧ s.sharedWithUserId = rid ∧ s.status = "active" := by
  subst hrid
  unfold ShareFile.process_recipient
  rw [hem]
  simp only [hvalid, Bool.not_true, Bool.false_eq_true, if_false, hself]
  generalize (match ShareFile.get_user_by_email users em with
              | none => "pending-" ++ env.uuidAt acc.uuidCount
              | some u => u.userId) = rid
  generalize (match ShareFile.get_user_by_email users em with
              | none => acc.uuidCount + 1
              | some _ => acc.uuidCount) = uc
  rcases hex : ShareFile.check_existing_share acc.shares ctx.fileId rid with _ | ex
  · unfold ShareFile.check_existing_share at hex
    rw [List.find?_eq_none] at hex
    constructor
    · intro h
      rcases hok : env.putOkAt acc.putCount with _ | _ <;> simp only [hok] at h
      · exact absurd (List.append_cancel_left h) (by simp)
      · exact absurd (congrArg List.length h) (by simp)
    · rintro ⟨s, hs, h1, h2, _⟩
      exact absurd (by simp [h1, h2]) (hex s hs)
  · have hmem : ex ∈ acc.shares := List.mem_of_find?_eq_some hex
    have hpred := List.find?_some hex
    simp only [Bool.and_eq_true, beq_iff_eq] at hpred
    rcases hst : (ex.status == "active") with _ | _ <;> simp only [hst]
    · constructor
      · intro h
        rcases hok : env.putOkAt acc.putCount with _ | _ <;> simp only [hok] at h
        · exact absurd (List.append_cancel_left h) (by simp)
        · exact absurd (congrArg List.length h) (by simp)
      · rintro ⟨s, hs, h1, h2, h3⟩
        have hse : s = ex := huniq s hs ex hmem (h1.trans hpred.1.symm) (h2.trans hpred.2.symm)
        rw [hse] at h3
        simp [h3] at hst
    · simp only [if_true, true_iff]
      exact ⟨ex, hmem, hpred.1, hpred.2, by simpa using hst⟩

/-- Witness for C1: a concrete recipient resolving to u2, against a table whose
only (f1, u2) share is active-but-expired, is rejected as a duplicate. -/
theorem share_duplicate_check_ignores_expiry_witness :
    ((strHasChar "b@x.com" '@' && strHasChar "b@x.com" '.') = true)
    ∧ (((ShareFile.process_recipient exEnv exC1ctx exC1users exC1acc
          { email := some "b@x.com", permissions := "read" }).failed
        = exC1acc.failed ++ [{ email := some "b@x.com", error := "File already shared with this user" }])
      ↔ ∃ s ∈ exC1acc.shares, s.fileId = exC1ctx.fileId ∧ s.sharedWithUserId = "u2"
          ∧ s.status = "active") :=
  ⟨by decide,
   share_duplicate_check_ignores_expiry exEnv exC1ctx exC1users exC1acc
     { email := some "b@x.com", permissions := "read" } "b@x.com" "u2"
     rfl (by decide) (by decide) (by decide) (by decide)⟩

/-- Each iteration of the recipient loop adds exactly one entry to exactly one
of the two result lists. -/
theorem process_recipient_adds_one (env : ShareFile.ShareEnv) (ctx : ShareFile.ShareCtx)
    (users : List ShareFile.UserRec) (acc : ShareFile.ShareAcc) (r : ShareFile.Recipient) :
    (ShareFile.process_recipient env ctx users acc r).successful.length
      + (ShareFile.process_recipient env ctx users acc r).failed.length
    = acc.successful.length + acc.failed.length + 1 := by
  unfold ShareFile.process_recipient
  rcases r.email with _ | em <;> dsimp only <;> (repeat' split) <;>
    simp only [List.length_append, List.length_singleton, List.length_cons,
      List.length_nil] <;>
    omega

/-- Folding the recipient loop over a list adds its length to the combined
entry count. -/
theorem foldl_process_recipient_length (env : ShareFile.ShareEnv) (ctx : ShareFile.ShareCtx)
    (users : List ShareFile.UserRec) :
    ∀ (rs : List ShareFile.Recipient) (acc : ShareFile.ShareAcc),
      (rs.foldl (ShareFile.process_recipient env ctx users) acc).successful.length
        + (rs.foldl (ShareFile.process_recipient env ctx users) acc).failed.length
      = acc.successful.length + acc.failed.length + rs.length := by
  intro rs
  induction rs with
  | nil => intro acc; simp
  | cons r t ih =>
    intro acc
    have h1 := process_recipient_adds_one env ctx users acc r
    have h2 := ih (ShareFile.process_recipient env ctx users acc r)
    simp only [List.foldl_cons, List.length_cons]
    omega

/-- C7 (confirmed): whenever the file-level checks pass and the batch result is
returned, every recipient contributes exactly one entry to `shared` or
`failed`: totalShared and totalFailed are the two list lengths and they sum to
the number of recipients. -/
theorem share_batch_exhaustive_counts
    (env : ShareFile.ShareEnv) (st : ShareFile.ShareState) (userId userEmail : String)
    (fileId? : Option String) (recipients : List ShareFile.Recipient)
    (message : String) (expiresAt : Option Nat) (now : Nat)
    (sh : List ShareFile.SharedEntry) (fl : List ShareFile.FailedEntry) (ts tf : Nat)
    (h : (ShareFile.handle_share_file env st userId userEmail fileId? recipients
            message expiresAt now).1 = .ok sh fl ts tf) :
    ts = sh.length ∧ tf = fl.length ∧ sh.length + fl.length = recipients.length := by
  unfold ShareFile.handle_share_file at h
  rcases fileId? with _ | fileId
  · exact absurd h (by simp)
  · dsimp only at h
    split at h
    · exact absurd h (by simp)
    · split at h
      · exact absurd h (by simp)
      · split at h
        · exact absurd h (by simp)
        · split at h
          · exact absurd h (by simp)
          · split at h
            · exact absurd h (by simp)
            · rcases h with ⟨rfl, rfl, rfl, rfl⟩
              refine ⟨rfl, rfl, ?_⟩
              have hfold := foldl_process_recipient_length env
                { fileId := fileId, ownerId := userId, ownerEmail := userEmail,
                  message := message, expiresAt := expiresAt, now := now } st.users
                recipients
                { shares := st.shares, successful := [], failed := [], uuidCount := 0,
                  putCount := 0 }
              simpa using hfold

/-- Witness for C7: a one-recipient batch with an invalid email yields
totalShared = 0, totalFailed = 1, and 0 + 1 = 1 recipient. -/
theorem share_batch_exhaustive_counts_witness :
    (exBatchRun.1 = .ok [] [{ email := some "x", error := "Invalid email format" }] 0 1)
    ∧ (0 = List.length ([] : List ShareFile.SharedEntry)
        ∧ 1 = List.length [({ email := some "x", error := "Invalid email format" } : ShareFile.FailedEntry)]
        ∧ List.length ([] : List ShareFile.SharedEntry)
            + List.length [({ email := some "x", error := "Invalid email format" } : ShareFile.FailedEntry)]
          = List.length [({ email := some "x", permissions := "read" } : ShareFile.Recipient)]) :=
  ⟨by decide,
   share_batch_exhaustive_counts exEnv exShareState "u1" "a@x.com" (some "f1")
     [{ email := some "x", permissions := "read" }] "" none 10
     [] [{ email := some "x", error := "Invalid email format" }] 0 1 (by decide)⟩

/-- C4 (counterexample): at evaluation time 100, a share whose expiresAt is
exactly 100 is included in the listShares result, although its expiry is not
strictly in the future (¬ 100 < 100): the code only excludes shares with
now strictly greater than the expiry. -/
theorem list_shares_boundary_expiry_included :
    ShareFile.handle_list_shares exC4State "u1" (some "f1") 100
      = .ok "f1" "a.txt" [ShareFile.format_share exBoundaryShare] 1
    ∧ exBoundaryShare.expiresAt = some 100
    ∧ ¬(100 < 100) :=
  ⟨by decide, by decide, by decide⟩

/-- C4 (amended): a successful listShares result contains exactly the file's
shares whose stored status is `active` and whose expiry, if set, is not
earlier than the evaluation time (now ≤ expiresAt — a share expiring exactly
now is still included), and the reported total is the length of that list. -/
theorem list_shares_active_nonexpired
    (st : ShareFile.ShareState) (userId : String) (fileId? : Option String) (now : Nat)
    (fid fn : String) (listed : List ShareFile.FormattedShare) (total : Nat)
    (h : ShareFile.handle_list_shares st userId fileId? now = .ok fid fn listed total) :
    total = listed.length
    ∧ (∀ fs ∈ listed, ∃ s ∈ st.shares,
        s.fileId = fid ∧ s.status = "active" ∧ (∀ e ∈ s.expiresAt, now ≤ e)
          ∧ fs = ShareFile.format_share s)
    ∧ (∀ s ∈ st.shares, s.fileId = fid → s.status = "active" →
        (∀ e ∈ s.expiresAt, now ≤ e) → ShareFile.format_share s ∈ listed) := by
  unfold ShareFile.handle_list_shares at h
  rcases fileId? with _ | fileId
  · exact absurd h (by simp)
  · dsimp only at h
    split at h
    · exact absurd h (by simp)
    · split at h
      · exact absurd h (by simp)
      · rcases h with ⟨rfl, rfl, rfl, rfl⟩
        refine ⟨rfl, ?_, ?_⟩
        · intro fs hfs
          rcases List.mem_map.mp hfs with ⟨s, hs, rfl⟩
          rcases List.mem_filter.mp hs with ⟨hs1, hs2⟩
          rcases List.mem_filter.mp hs1 with ⟨hmem, hfid⟩
          rw [Bool.and_eq_true] at hs2
          rcases hs2 with ⟨hst, hexp⟩
          exact ⟨s, hmem, by simpa using hfid, by simpa using hst,
                 (shareNotExpired_iff now s).mp hexp, rfl⟩
        · intro s hmem h1 h2 h3
          apply List.mem_map_of_mem
          refine List.mem_filter.mpr ⟨List.mem_filter.mpr ⟨hmem, by simp [h1]⟩, ?_⟩
          simp only [Bool.and_eq_true]
          exact ⟨by simp [h2], (shareNotExpired_iff now s).mpr h3⟩

/-- Witness for C4: the boundary-expiry state yields a successful listing whose
total equals the listed length. -/
theorem list_shares_active_nonexpired_witness :
    (ShareFile.handle_list_shares exC4State "u1" (some "f1") 100
      = .ok "f1" "a.txt" [ShareFile.format_share exBoundaryShare] 1)
    ∧ 1 = [ShareFile.format_share exBoundaryShare].length :=
  ⟨by decide,
   (list_shares_active_nonexpired exC4State "u1" (some "f1") 100 "f1" "a.txt"
      [ShareFile.format_share exBoundaryShare] 1 (by decide)).1⟩

/-- C10 (confirmed): revoking a share that is already `revoked` (requester owns
the file, share belongs to the file) returns the same success response as a
first revocation, re-stamps revokedAt with the fresh timestamp, and is not a
pure no-op when the stored revokedAt differs from the new timestamp. -/
theorem revoke_already_revoked_overwrites
    (st : ShareFile.ShareState) (userId fileId shareId : String) (now : Nat)
    (fileItem : ShareFile.FileRec) (share : ShareFile.Share)
    (hfile : ShareFile.find_file_by_id st.files fileId = some fileItem)
    (hown : fileItem.userId = userId)
    (hshare : st.shares.find? (fun s => s.shareId == shareId) = some share)
    (hbel : share.fileId = fileId)
    (hrev : share.status = "revoked") :
    (ShareFile.handle_revoke_share st userId (some fileId) (some shareId) now).1
      = .ok true "Share access revoked" shareId
    ∧ (∀ s ∈ (ShareFile.handle_revoke_share st userId (some fileId) (some shareId) now).2.shares,
        s.fileId = fileId → s.sharedWithUserId = share.sharedWithUserId →
          s.status = "revoked" ∧ s.revokedAt = some now)
    ∧ (share.revokedAt ≠ some now →
        (ShareFile.handle_revoke_share st userId (some fileId) (some shareId) now).2.shares
          ≠ st.shares) := by
  unfold ShareFile.handle_revoke_share
  simp only [hfile, hown, hshare, hbel, bne_self_eq_false, Bool.false_eq_true,
    if_false]
  refine ⟨trivial, ?_, ?_⟩
  · intro s hs
    rcases List.mem_map.mp hs with ⟨s0, hs0, rfl⟩
    split
    · intro _ _
      exact ⟨rfl, rfl⟩
    · intro h1 h2
      next hk => exact absurd (by simp [h1, h2]) hk
  · intro hne heq
    obtain ⟨i, hi, hget⟩ := List.mem_iff_getElem.mp (List.mem_of_find?_eq_some hshare)
    have h1 := congrArg (fun l : List ShareFile.Share => l[i]?) heq
    simp only [List.getElem?_map] at h1
    rw [List.getElem?_eq_getElem hi, hget] at h1
    simp only [Option.map_some'] at h1
    rw [Option.some_inj] at h1
    rw [if_pos (by simp [hbel])] at h1
    exact hne (congrArg ShareFile.Share.revokedAt h1).symm

/-- Witness for C10: re-revoking the already-revoked share sh1 succeeds with the
standard response. -/
theorem revoke_already_revoked_overwrites_witness :
    (ShareFile.find_file_by_id exC10State.files "f1" = some exOwnerFile)
    ∧ (exRevokedShare.status = "revoked")
    ∧ (ShareFile.handle_revoke_share exC10State "u1" (some "f1") (some "sh1") 50).1
        = .ok true "Share access revoked" "sh1" :=
  ⟨by decide, by decide,
   (revoke_already_revoked_overwrites exC10State "u1" "f1" "sh1" 50 exOwnerFile
      exRevokedShare (by decide) (by decide) (by decide) (by decide) (by decide)).1⟩

/-- Case split for the submit handler: every run either returns an error and
leaves the state untouched, or appends exactly the created submission, whose
isLate flag was computed from the submission time and stored due date. -/
theorem submit_state_cases (st : SubmitAssignment.SubState)
    (userId userEmail userName : String) (assignmentId? fileId? : Option String)
    (comments : String) (now : Nat) (sid : String) :
    (∃ c e m, (SubmitAssignment.handle_submit_assignment st userId userEmail userName
        assignmentId? fileId? comments now sid).1 = .err c e m
      ∧ (SubmitAssignment.handle_submit_assignment st userId userEmail userName
          assignmentId? fileId? comments now sid).2 = st)
    ∨ (∃ sub, (SubmitAssignment.handle_submit_assignment st userId userEmail userName
          assignmentId? fileId? comments now sid).1 = .ok sub
        ∧ (SubmitAssignment.handle_submit_assignment st userId userEmail userName
            assignmentId? fileId? comments now sid).2.submissions = st.submissions ++ [sub]
        ∧ sub.isLate = decide (now > sub.dueDate)
        ∧ sub.submittedAt = now) := by
  unfold SubmitAssignment.handle_submit_assignment
  dsimp only
  repeat' split
  all_goals first
    | (left; exact ⟨_, _, _, rfl, rfl⟩)
    | (right; exact ⟨_, rfl, rfl, rfl, rfl⟩)

/-- C8 (confirmed): whenever the submit handler returns an error (missing ids,
assignment/file missing or inactive, disallowed type, oversize, limit
reached), the state is returned unchanged: no Submission is written and the
assignment's submissionCount is untouched. -/
theorem submit_validation_error_no_mutation (st : SubmitAssignment.SubState)
    (userId userEmail userName : String) (assignmentId? fileId? : Option String)
    (comments : String) (now : Nat) (sid : String) (code : Nat) (cat msg : String)
    (h : (SubmitAssignment.handle_submit_assignment st userId userEmail userName
        assignmentId? fileId? comments now sid).1 = .err code cat msg) :
    (SubmitAssignment.handle_submit_assignment st userId userEmail userName
        assignmentId? fileId? comments now sid).2 = st := by
  rcases submit_state_cases st userId userEmail userName assignmentId? fileId? comments
      now sid with ⟨c, e, m, h1, h2⟩ | ⟨sub, h1, h2, h3, h4⟩
  · exact h2
  · rw [h] at h1
    exact absurd h1 (by simp)

/-- Witness for C8: a submit with no fileId errors out and leaves the state
unchanged. -/
theorem submit_validation_error_no_mutation_witness :
    ((SubmitAssignment.handle_submit_assignment exSubState0 "stu" "s@x.com" "Stu"
        (some "a1") none "" 10 "s1").1 = .err 400 "Bad Request" "File ID is required")
    ∧ (SubmitAssignment.handle_submit_assignment exSubState0 "stu" "s@x.com" "Stu"
        (some "a1") none "" 10 "s1").2 = exSubState0 :=
  ⟨by decide,
   submit_validation_error_no_mutation exSubState0 "stu" "s@x.com" "Stu" (some "a1")
     none "" 10 "s1" 400 "Bad Request" "File ID is required" (by decide)⟩

/-- C5 (confirmed): a successful submit stores isLate = (submission time >
stored due date), computed once at submission time, and the grading handler
never changes the stored isLate, submittedAt or dueDate of any submission. -/
theorem isLate_fixed_at_submission :
    (∀ (st : SubmitAssignment.SubState) (userId userEmail userName : String)
       (assignmentId? fileId? : Option String) (comments : String) (now : Nat)
       (sid : String) (sub : SubmitAssignment.Submission),
      (SubmitAssignment.handle_submit_assignment st userId userEmail userName
          assignmentId? fileId? comments now sid).1 = .ok sub →
        sub.isLate = decide (now > sub.dueDate) ∧ sub.submittedAt = now)
    ∧ (∀ (st : SubmitAssignment.SubState) (userId userRole userName : String)
         (assignmentId? submissionId? : Option String) (grade? : Option Rat)
         (maxGrade : Rat) (feedback : String) (feedbackFileId? : Option String)
         (now : Nat),
        ((SubmitAssignment.handle_grade_submission st userId userRole userName
            assignmentId? submissionId? grade? maxGrade feedback feedbackFileId?
            now).2).submissions.map (fun s => (s.isLate, s.submittedAt, s.dueDate))
          = st.submissions.map (fun s => (s.isLate, s.submittedAt, s.dueDate))) := by
  constructor
  · intro st userId userEmail userName assignmentId? fileId? comments now sid sub h
    rcases submit_state_cases st userId userEmail userName assignmentId? fileId?
        comments now sid with ⟨c, e, m, h1, _⟩ | ⟨sub', h1, _, h3, h4⟩
    · rw [h] at h1
      exact absurd h1 (by simp)
    · rw [h] at h1
      cases h1
      exact ⟨h3, h4⟩
  · intro st userId userRole userName assignmentId? submissionId? grade? maxGrade
      feedback feedbackFileId? now
    unfold SubmitAssignment.handle_grade_submission
    repeat' split
    all_goals try rfl
    all_goals
      dsimp only
      rw [List.map_map]
      apply List.map_congr_left
      intro s _
      simp only [Function.comp_apply]
      split <;> rfl

/-- Witness for C5: the first scenario submit stores the expected record with
isLate computed from time 10 against due date 100. -/
theorem isLate_fixed_at_submission_witness :
    exSubmit1.1 = SubmitAssignment.SubmitOutcome.ok exSub1
    ∧ exSub1.isLate = decide ((10 : Nat) > exSub1.dueDate)
    ∧ exSub1.submittedAt = 10 := by
  refine ⟨by decide, ?_, ?_⟩
  · exact ((isLate_fixed_at_submission).1 exSubState0 "stu" "s@x.com" "Stu" (some "a1")
      (some "f1") "" 10 "s1" exSub1 (by decide)).1
  · exact ((isLate_fixed_at_submission).1 exSubState0 "stu" "s@x.com" "Stu" (some "a1")
      (some "f1") "" 10 "s1" exSub1 (by decide)).2

/-- C2 (confirmed): with the other validations passing, a submit with c
existing submissions for (assignment, student) creates submissionNumber c + 1
when c is below the configured maximum and returns a Forbidden limit error
with no state change when c is at or above it; three sequential submits
against maxSubmissions = 2 yield numbers 1, 2 and a rejection. -/
theorem submit_limit_and_sequence :
    (∀ (st : SubmitAssignment.SubState) (userId userEmail userName aid fid : String)
       (comments : String) (now : Nat) (sid : String)
       (assignment : SubmitAssignment.Assignment) (fileItem : SubmitAssignment.FileRec),
      SubmitAssignment.find_assignment st.assignments aid = some assignment →
      assignment.status = "active" →
      st.files.find? (fun f => f.userId == userId && f.fileId == fid) = some fileItem →
      fileItem.status = "active" →
      (match assignment.allowedFileTypes with
       | some allowed => allowed.contains fileItem.contentType
       | none => true) = true →
      (match assignment.maxFileSize with
       | some m => decide (fileItem.fileSize ≤ m)
       | none => true) = true →
      (((SubmitAssignment.student_submissions st.submissions aid userId).length
            < assignment.maxSubmissions.getD 1 →
         ∃ sub, (SubmitAssignment.handle_submit_assignment st userId userEmail userName
              (some aid) (some fid) comments now sid).1 = .ok sub
           ∧ sub.submissionNumber
               = (SubmitAssignment.student_submissions st.submissions aid userId).length + 1
           ∧ (SubmitAssignment.handle_submit_assignment st userId userEmail userName
               (some aid) (some fid) comments now sid).2.submissions
               = st.submissions ++ [sub])
       ∧ (assignment.maxSubmissions.getD 1
            ≤ (SubmitAssignment.student_submissions st.submissions aid userId).length →
          (SubmitAssignment.handle_submit_assignment st userId userEmail userName
              (some aid) (some fid) comments now sid).1
            = .err 403 "Forbidden"
                ("Maximum submission limit reached ("
                  ++ toString (assignment.maxSubmissions.getD 1) ++ ")")
          ∧ (SubmitAssignment.handle_submit_assignment st userId userEmail userName
              (some aid) (some fid) comments now sid).2 = st)))
    ∧ (submitNumber? exSubmit1.1 = some 1
       ∧ submitNumber? exSubmit2.1 = some 2
       ∧ exSubmit3.1 = .err 403 "Forbidden" "Maximum submission limit reached (2)"
       ∧ exSubmit3.2 = exSubmit2.2
       ∧ exSubmit2.2.submissions.length = 2) := by
  constructor
  · intro st userId userEmail userName aid fid comments now sid assignment fileItem
      ha hs hf hfs hat hms
    have hguard1 : (match assignment.allowedFileTypes with
                    | some allowed => !(allowed.contains fileItem.contentType)
                    | none => false) = false := by
      rcases hA : assignment.allowedFileTypes with _ | allowed
      · rfl
      · simp only [hA] at hat ⊢
        rw [hat]
        rfl
    have hguard2 : (match assignment.maxFileSize with
                    | some m => decide (fileItem.fileSize > m)
                    | none => false) = false := by
      rcases hM : assignment.maxFileSize with _ | m
      · rfl
      · simp only [hM] at hms
        have hle := of_decide_eq_true hms
        exact decide_eq_false (by omega)
    unfold SubmitAssignment.handle_submit_assignment
    simp only [ha, hs, hf, hfs, hguard1, hguard2, bne_self_eq_false,
      Bool.false_eq_true, if_false]
    split
    · rename_i hle
      exact ⟨fun hlt => absurd hle (by omega), fun _ => ⟨rfl, rfl⟩⟩
    · rename_i hnle
      exact ⟨fun _ => ⟨_, rfl, rfl, rfl⟩, fun hle => absurd hle hnle⟩
  · refine ⟨by decide, by decide, by decide, by decide, by decide⟩

/-- Witness for C2: with 2 stored submissions and maxSubmissions = 2, a third
submit is rejected with the Forbidden limit error and no state change. -/
theorem submit_limit_and_sequence_witness :
    (SubmitAssignment.find_assignment exTwoSubsState.assignments "a1" = some exAssignment)
    ∧ ((SubmitAssignment.handle_submit_assignment exTwoSubsState "stu" "s@x.com" "Stu"
          (some "a1") (some "f1") "" 12 "s3").1
        = .err 403 "Forbidden" "Maximum submission limit reached (2)"
      ∧ (SubmitAssignment.handle_submit_assignment exTwoSubsState "stu" "s@x.com" "Stu"
          (some "a1") (some "f1") "" 12 "s3").2 = exTwoSubsState) :=
  ⟨by decide,
   ((submit_limit_and_sequence).1 exTwoSubsState "stu" "s@x.com" "Stu" "a1" "f1" "" 12 "s3"
      exAssignment exSubFile (by decide) (by decide) (by decide) (by decide) (by decide)
      (by decide)).2 (by decide)⟩

/-- C3 (counterexample): the grade operation on a submission whose status is
already `graded` (grade 50, graded at time 10) succeeds and overwrites its
grade, gradedAt and the other grade fields (to 80 at time 20): grade fields
are not immutable once graded. -/
theorem regrade_overwrites_graded_fields :
    exGradedSub.status = "graded"
    ∧ exGradeState.submissions.map (fun s => s.grade) = [some 50]
    ∧ exRegrade.1 = .ok "s1" 80 100 "better" 20 "i1" "Prof" "graded"
    ∧ exRegrade.2.submissions.map (fun s => s.grade) = [some 80]
    ∧ exRegrade.2.submissions.map (fun s => s.gradedAt) = [some 20] :=
  ⟨by decide, by decide, by decide, by decide, by decide⟩

/-- C3 (amended): grading is unguarded — for a submission whose status is
already `graded`, a further grade call succeeds and overwrites grade,
maxGrade, feedback, grading timestamp and grader identity with the new
values; the status remains `graded` (the only one-way aspect). -/
theorem grade_overwrites_unconditionally
    (st : SubmitAssignment.SubState) (userId userRole userName aid sid : String)
    (grade maxGrade : Rat) (feedback : String) (feedbackFileId? : Option String)
    (now : Nat) (assignment : SubmitAssignment.Assignment)
    (submission : SubmitAssignment.Submission)
    (hrole : roleAllowed userRole = true)
    (ha : SubmitAssignment.find_assignment st.assignments aid = some assignment)
    (hinstr : assignment.instructorId = userId)
    (hsub : st.submissions.find? (fun s => s.submissionId == sid) = some submission)
    (hbel : submission.assignmentId = aid)
    (hgraded : submission.status = "graded") :
    (SubmitAssignment.handle_grade_submission st userId userRole userName (some aid)
        (some sid) (some grade) maxGrade feedback feedbackFileId? now).1
      = .ok sid grade maxGrade feedback now userId userName "graded"
    ∧ ∀ s ∈ (SubmitAssignment.handle_grade_submission st userId userRole userName
        (some aid) (some sid) (some grade) maxGrade feedback feedbackFileId? now).2.submissions,
        SubmitAssignment.gradeKeyMatches aid submission s = true →
          s.grade = some grade ∧ s.maxGrade = some maxGrade
            ∧ s.feedback = some (strTake feedback 2000) ∧ s.gradedAt = some now
            ∧ s.gradedBy = some userId ∧ s.status = "graded" := by
  unfold SubmitAssignment.handle_grade_submission
  simp only [hrole, Bool.not_true, Bool.false_eq_true, if_false, ha, hinstr, hsub,
    hbel, bne_self_eq_false]
  refine ⟨trivial, ?_⟩
  intro s hs
  rcases List.mem_map.mp hs with ⟨s0, hs0, rfl⟩
  split
  · intro _
    refine ⟨rfl, rfl, rfl, rfl, rfl, rfl⟩
  · intro hkey
    next hk => exact absurd hkey hk

/-- Witness for C3: concretely re-grading the graded submission s1 succeeds. -/
theorem grade_overwrites_unconditionally_witness :
    (roleAllowed "instructor" = true)
    ∧ (exGradedSub.status = "graded")
    ∧ exRegrade.1 = .ok "s1" 80 100 "better" 20 "i1" "Prof" "graded" :=
  ⟨by decide, by decide,
   (grade_overwrites_unconditionally exGradeState "i1" "instructor" "Prof" "a1" "s1"
      80 100 "better" none 20 exAssignment exGradedSub (by decide) (by decide)
      (by decide) (by decide) (by decide) (by decide)).1⟩

/-- C6 (counterexample): a complete-upload request reporting upload failure for
a file whose status is already `active` does not leave it `active`: the
failure path unconditionally marks the record `failed`. -/
theorem failed_report_overwrites_active :
    exUpFile.status = "active"
    ∧ exFailReport.1 = .okFailed "Upload marked as failed" "f1"
    ∧ exFailReport.2.files.map (fun f => f.status) = ["failed"] :=
  ⟨by decide, by decide, by decide⟩

/-- C6 (amended): in the success path an already-`active` file is returned
unchanged ("File already completed"); but a complete-upload request reporting
upload failure unconditionally rewrites the (userId, fileId) record to status
`failed`, whatever its current status — including `active`. -/
theorem complete_upload_status_transitions :
    (∀ (st : CompleteUpload.UploadState) (userId fileId s3Key : String)
       (checksum? : Option String) (now : Nat) (fileItem : CompleteUpload.FileRec),
      st.files.find? (fun f => f.userId == userId && f.fileId == fileId) = some fileItem →
      fileItem.status = "active" →
      CompleteUpload.complete_upload st userId (some fileId) true (some s3Key) checksum? now
        = (.okCompleted "File already completed" fileItem, st))
    ∧ (∀ (st : CompleteUpload.UploadState) (userId fileId : String)
         (s3Key? checksum? : Option String) (now : Nat),
        CompleteUpload.complete_upload st userId (some fileId) false s3Key? checksum? now
          = (.okFailed "Upload marked as failed" fileId,
             { st with files := st.files.map (fun f =>
                 if f.userId == userId && f.fileId == fileId then
                   { f with status := "failed", lastModified := some now }
                 else f) })) := by
  constructor
  · intro st userId fileId s3Key checksum? now fileItem hfind hact
    have hpred := List.find?_some hfind
    rw [Bool.and_eq_true] at hpred
    have hown : fileItem.userId = userId := by simpa using hpred.1
    unfold CompleteUpload.complete_upload
    simp only [hfind, hown, hact, bne_self_eq_false, Bool.false_eq_true, if_false,
      Bool.not_true, beq_self_eq_true, if_true]
  · intro st userId fileId s3Key? checksum? now
    rfl

/-- Witness for C6: completing the already-active file f1 with a success report
returns it unchanged. -/
theorem complete_upload_status_transitions_witness :
    (exUpState.files.find? (fun f => f.userId == "u1" && f.fileId == "f1") = some exUpFile)
    ∧ (exUpFile.status = "active")
    ∧ CompleteUpload.complete_upload exUpState "u1" (some "f1") true (some "k1") none 60
        = (.okCompleted "File already completed" exUpFile, exUpState) :=
  ⟨by decide, by decide,
   (complete_upload_status_transitions).1 exUpState "u1" "f1" "k1" none 60 exUpFile
     (by decide) (by decide)⟩

/-- C9 (counterexample): the token "5" is valid JSON — json.loads succeeds —
but it is not the store's expected key shape, and supplying it does fail the
request: both paginated handlers return a 500 instead of ignoring it and
restarting, refuting the claim for exactly its class of tokens. -/
theorem json_valid_wrong_shape_token_fails :
    (∃ v, json_loads "5" = some v ∧ startKeyOf v = none)
    ∧ ShareFile.handle_shared_with_me exShareState "u2" 20 (some "5") 10
        = .err 500 "Internal Server Error" "Invalid ExclusiveStartKey"
    ∧ SubmitAssignment.handle_list_submissions exSubState0 "i1" "instructor"
        (some "a1") none 50 (some "5")
        = .err 500 "Internal Server Error" "Invalid ExclusiveStartKey" :=
  ⟨⟨JsonVal.otherJson "5", by decide, rfl⟩, by decide, by decide⟩

/-- C9 (amended): only the JSON-parse-failure subclass of bad tokens is
handled gracefully.  For both paginated listings, a nextToken whose
deserialization raises JSONDecodeError is ignored and the query restarts from
the beginning (shared-with-me still succeeds); but a nextToken that parses as
JSON to a value that is not the store's key shape is installed as
ExclusiveStartKey and the request fails with a 500 Internal Server Error. -/
theorem pagination_token_two_failure_modes :
    (∀ (st : ShareFile.ShareState) (userId : String) (limitReq : Nat) (t : String)
       (now : Nat),
      json_loads t = none →
        ShareFile.handle_shared_with_me st userId limitReq (some t) now
          = ShareFile.handle_shared_with_me st userId limitReq none now
        ∧ ∃ fs tot nt, ShareFile.handle_shared_with_me st userId limitReq (some t) now
            = .ok fs tot nt)
    ∧ (∀ (st : SubmitAssignment.SubState) (userId userRole : String)
         (assignmentId? statusFilter? : Option String) (limitReq : Nat) (t : String),
        json_loads t = none →
          SubmitAssignment.handle_list_submissions st userId userRole assignmentId?
              statusFilter? limitReq (some t)
            = SubmitAssignment.handle_list_submissions st userId userRole assignmentId?
                statusFilter? limitReq none)
    ∧ (∀ (st : ShareFile.ShareState) (userId : String) (limitReq : Nat) (t : String)
         (now : Nat) (v : JsonVal),
        json_loads t = some v → startKeyOf v = none →
          ShareFile.handle_shared_with_me st userId limitReq (some t) now
            = .err 500 "Internal Server Error" "Invalid ExclusiveStartKey")
    ∧ (∀ (st : SubmitAssignment.SubState) (userId userRole aid : String)
         (statusFilter? : Option String) (limitReq : Nat) (t : String) (v : JsonVal)
         (assignment : SubmitAssignment.Assignment),
        roleAllowed userRole = true →
        SubmitAssignment.find_assignment st.assignments aid = some assignment →
        assignment.instructorId = userId →
        json_loads t = some v → startKeyOf v = none →
          SubmitAssignment.handle_list_submissions st userId userRole (some aid)
              statusFilter? limitReq (some t)
            = .err 500 "Internal Server Error" "Invalid ExclusiveStartKey") := by
  refine ⟨?_, ?_, ?_, ?_⟩
  · intro st userId limitReq t now h
    constructor
    · unfold ShareFile.handle_shared_with_me
      simp only [h]
    · unfold ShareFile.handle_shared_with_me
      simp only [h]
      exact ⟨_, _, _, rfl⟩
  · intro st userId userRole assignmentId? statusFilter? limitReq t h
    unfold SubmitAssignment.handle_list_submissions
    simp only [h]
  · intro st userId limitReq t now v hj hk
    unfold ShareFile.handle_shared_with_me
    simp only [hj, hk]
  · intro st userId userRole aid statusFilter? limitReq t v assignment hrole ha hinstr hj hk
    unfold SubmitAssignment.handle_list_submissions
    simp only [hrole, Bool.not_true, Bool.false_eq_true, if_false, ha, hinstr,
      bne_self_eq_false, hj, hk]

/-- Witness for C9: the malformed token "not-json" is ignored by
shared-with-me (restart from the beginning), while the JSON-valid wrong-shape
token "5" makes the same request fail with a 500. -/
theorem pagination_token_two_failure_modes_witness :
    (json_loads "not-json" = none
      ∧ ShareFile.handle_shared_with_me exShareState "u2" 20 (some "not-json") 10
          = ShareFile.handle_shared_with_me exShareState "u2" 20 none 10)
    ∧ (json_loads "5" = some (JsonVal.otherJson "5")
      ∧ ShareFile.handle_shared_with_me exShareState "u2" 20 (some "5") 10
          = .err 500 "Internal Server Error" "Invalid ExclusiveStartKey") :=
  ⟨⟨by decide,
    ((pagination_token_two_failure_modes).1 exShareState "u2" 20 "not-json" 10
       (by decide)).1⟩,
   ⟨by decide,
    (pagination_token_two_failure_modes).2.2.1 exShareState "u2" 20 "5" 10
      (JsonVal.otherJson "5") (by decide) rfl⟩⟩
